import Mathlib

/-!
Shallow embedding of the GDELT dashboard core (src/app.py) and proofs about it.

Strings are Lean `String`s; character-level operations (Python `str.strip`,
`str.split(";")`, `str.startswith('"')`) are modelled over `String.data`.
`datetime` values are modelled as integer seconds; `timedelta(days = d)` is
`d * secondsPerDay`.
-/

/-- Python `str.strip()` (whitespace on both ends), as used in
`ensure_keyword_in_quotes` (app.py line 79) and `build_query` (line 248). -/
def stripChars (l : List Char) : List Char :=
  List.rdropWhile Char.isWhitespace (List.dropWhile Char.isWhitespace l)

/-- Python `str.split(";")` (app.py line 244): split on every semicolon,
keeping empty pieces; the empty string yields one empty piece. -/
def splitSemi : List Char → List (List Char)
  | [] => [[]]
  | c :: rest =>
    let r := splitSemi rest
    if c = ';' then [] :: r
    else (c :: r.headD []) :: r.tail

/-- Python `keyword.startswith('"')` (app.py line 80). -/
def startswithQuote : List Char → Bool
  | [] => false
  | c :: _ => c = '"'

/-- Python `keyword.endswith('"')` (app.py line 80). -/
def endswithQuote (l : List Char) : Bool :=
  startswithQuote l.reverse

/-- app.py lines 75-82: strip the keyword, then wrap it in double quotes
unless it already starts and ends with a double quote. -/
def ensure_keyword_in_quotes (keyword : String) : String :=
  let k := stripChars keyword.data
  if startswithQuote k && endswithQuote k then String.mk k
  else String.mk ('"' :: k ++ ['"'])

/-- app.py lines 238-253: split the raw input on `;`; with more than one
piece, quote each stripped piece and join with ` OR ` inside one pair of
parentheses; with a single piece, return the quoted stripped piece bare. -/
def build_query (keyword_input : String) : String :=
  let keywords := splitSemi keyword_input.data
  if keywords.length > 1 then
    let quoted := keywords.map (fun kw => ensure_keyword_in_quotes (String.mk (stripChars kw)))
    "(" ++ String.intercalate " OR " quoted ++ ")"
  else
    ensure_keyword_in_quotes (String.mk (stripChars (keywords.headD [])))

/-- Spec reading of the quoting step (claim C1): the trimmed piece is wrapped
in double quotes unless it already starts and ends with a double quote. -/
def quote_phrase_spec (t : List Char) : String :=
  if startswithQuote t && endswithQuote t then String.mk t
  else String.mk ('"' :: t ++ ['"'])

/-- Spec reading of the query builder (claim C1): split on `;`, trim each
piece, quote each piece; one resulting phrase is returned bare, several are
joined with ` OR ` and wrapped in exactly one pair of parentheses. -/
def build_query_spec (raw : String) : String :=
  let quoted := (splitSemi raw.data).map (fun p => quote_phrase_spec (stripChars p))
  match quoted with
  | [q] => q
  | qs => "(" ++ String.intercalate " OR " qs ++ ")"

/-- One day of `timedelta` time, in seconds. -/
def secondsPerDay : Int := 86400

/-- app.py lines 84-96: `get_start_date` maps the lookback token to
`(now - fixed duration, now)`; `timedelta(weeks = 1)` is 7 days, the other
tokens use explicit day counts. A token outside the five-token enumeration
leaves `start_datetime` unassigned, so the Python function raises
(`UnboundLocalError`); that is modelled as `none`. -/
def get_start_date (lookback_period : String) (now : Int) : Option (Int × Int) :=
  if lookback_period = "1 week" then some (now - 7 * secondsPerDay, now)
  else if lookback_period = "1 month" then some (now - 30 * secondsPerDay, now)
  else if lookback_period = "3 months" then some (now - 90 * secondsPerDay, now)
  else if lookback_period = "6 months" then some (now - 180 * secondsPerDay, now)
  else if lookback_period = "1 year" then some (now - 365 * secondsPerDay, now)
  else none

/-- app.py line 136: the lookback options offered by `get_user_input`. -/
def lookback_options : List String :=
  ["1 week", "1 month", "3 months", "6 months", "1 year"]

/-- One point of the GDELT `timelinevol` payload: a `{date, value}` pair
(app.py line 172); `pd.to_numeric` on `value` is modelled by `Rat`. -/
structure RawPoint where
  date : String
  value : Rat
deriving DecidableEq

/-- One series of the `timelinevol` payload; `data := none` models a series
object that lacks the `data` key (app.py line 172 indexes it directly). -/
structure RawSeries where
  data : Option (List RawPoint)
deriving DecidableEq

/-- The decoded `timelinevol` JSON payload: `{"timeline": [...]}`. -/
structure RawTimelinePayload where
  timeline : List RawSeries
deriving DecidableEq

/-- One `{bin, count}` pair of the `tonechart` payload (app.py line 179). -/
structure ToneBucket where
  bin : Int
  count : Int
deriving DecidableEq

/-- The decoded `tonechart` JSON payload: `{"tonechart": [...]}`. -/
structure RawTonePayload where
  tonechart : List ToneBucket
deriving DecidableEq

/-- One article of the `artlist` payload (title and url are the fields the
pipeline consumes; app.py lines 183 and 190). -/
structure Article where
  title : String
  url : String
deriving DecidableEq

/-- The decoded `artlist` JSON payload: `{"articles": [...]}`. -/
structure RawArticlesPayload where
  articles : List Article
deriving DecidableEq

/-- A row of the aggregated timeline table (app.py lines 172-175). -/
structure TimelinePoint where
  date : String
  value : Rat
  moving_avg : Option Rat
deriving DecidableEq

/-- The Python exceptions that `aggregate_gdelt_data` can raise while
unpacking a truthy but malformed timeline payload (app.py line 172):
`timeline_data['timeline'][0]` on an empty list raises `IndexError`, a
series dict without a `data` key raises `KeyError`. -/
inductive AggError where
  | indexError
  | keyError
deriving DecidableEq

/-- `pandas` `rolling(window=7).mean()` (app.py line 175): entry `i` is the
mean of entries `i-6 .. i` once seven entries exist, and absent (NaN) for
the first six entries. -/
def rolling_mean7 (vals : List Rat) : List (Option Rat) :=
  (List.range vals.length).map (fun i =>
    if 6 ≤ i then some (((vals.drop (i - 6)).take 7).sum / 7) else none)

/-- app.py lines 172-175: build the timeline table from the first series'
data list, with the 7-point moving-average column. -/
def mk_timeline_table (data : List RawPoint) : List TimelinePoint :=
  List.zipWith (fun p m => { date := p.date, value := p.value, moving_avg := m })
    data (rolling_mean7 (data.map RawPoint.value))

/-- app.py line 172: `timeline_data['timeline'][0]['data']`, with the two
exceptions a truthy but malformed payload raises. -/
def parse_timeline (p : RawTimelinePayload) : Except AggError (List RawPoint) :=
  match p.timeline with
  | [] => .error .indexError
  | s :: _ =>
    match s.data with
    | none => .error .keyError
    | some d => .ok d

/-- app.py lines 167-185: `aggregate_gdelt_data`. Each `Option` argument is
the result of the corresponding `query_gdelt_data` call (app.py lines
159-164): `none` models a non-200 HTTP status, for which the mode's table
stays empty. The timeline payload is unpacked first, exactly as in the
source, so an exception there aborts the whole aggregation. -/
def aggregate_gdelt_data (timeline_resp : Option RawTimelinePayload)
    (tone_resp : Option RawTonePayload) (articles_resp : Option RawArticlesPayload) :
    Except AggError (List Article × List TimelinePoint × List ToneBucket) :=
  let timelineE : Except AggError (List TimelinePoint) :=
    match timeline_resp with
    | none => .ok []
    | some p =>
      match parse_timeline p with
      | .error e => .error e
      | .ok d => .ok (mk_timeline_table d)
  match timelineE with
  | .error e => .error e
  | .ok timeline_df =>
    let tone_df := match tone_resp with
      | none => []
      | some p => p.tonechart
    let articles_df := match articles_resp with
      | none => []
      | some p => p.articles
    .ok (articles_df, timeline_df, tone_df)

/-- The timeline fixture of claim C4: values 1 through 8. -/
def c4_points : List RawPoint :=
  [⟨"d1", 1⟩, ⟨"d2", 2⟩, ⟨"d3", 3⟩, ⟨"d4", 4⟩,
   ⟨"d5", 5⟩, ⟨"d6", 6⟩, ⟨"d7", 7⟩, ⟨"d8", 8⟩]

/-- One HTTP request to the GDELT service, as issued by `query_gdelt_data`
(app.py lines 141-159): the built query, the mode, and the period bounds. -/
structure GdeltRequest where
  query : String
  mode : String
  start_dt : Int
  end_dt : Int
deriving DecidableEq

/-- The three mode requests that one search issues through
`aggregate_gdelt_data` (app.py lines 170, 177, 181), in source order. -/
def issued_requests (query : String) (s e : Int) : List GdeltRequest :=
  [⟨query, "timelinevol", s, e⟩, ⟨query, "tonechart", s, e⟩, ⟨query, "artlist", s, e⟩]

/-- Outcome of one press of the search button (app.py lines 51-59). -/
inductive MainOutcome where
  | tooShortWarning
  | periodError
  | results (query : String) (start_dt end_dt : Int) (issued : List GdeltRequest)
deriving DecidableEq

/-- app.py lines 51-59: a keyword input shorter than 5 characters only shows
the warning; otherwise the query is built, the period resolved and the three
mode requests issued. `periodError` models the crash of `get_start_date` on
an unknown token. -/
def main_search (keyword_input lookback_period : String) (now : Int) : MainOutcome :=
  if keyword_input.length < 5 then .tooShortWarning
  else
    let query := build_query keyword_input
    match get_start_date lookback_period now with
    | some (s, e) => .results query s e (issued_requests query s e)
    | none => .periodError

/-- The network requests an outcome carries (none for the warning paths). -/
def requests_of : MainOutcome → List GdeltRequest
  | .results _ _ _ rs => rs
  | _ => []

/-- The total article count of a tone table. -/
def totalToneCount (buckets : List ToneBucket) : Int :=
  (buckets.map ToneBucket.count).sum

/-- Modelled from the spec: the derived tone aggregates `negativeShare`,
`neutralShare`, `positiveShare` of spec §3 are not computed in src/app.py
(`display_tone_chart` only colors buckets by bin sign); the spec assigns
them to the repository's other dashboard variants, absent from src/. Each
share is the summed count of bins `< 0` / `= 0` / `> 0` divided by the total
count, as a percentage; undefined when the total count is 0. -/
def tone_shares (buckets : List ToneBucket) : Option (Rat × Rat × Rat) :=
  if totalToneCount buckets = 0 then none
  else
    some (100 * (((buckets.filter (fun b => b.bin < 0)).map ToneBucket.count).sum : Rat)
            / (totalToneCount buckets : Rat),
          100 * (((buckets.filter (fun b => b.bin = 0)).map ToneBucket.count).sum : Rat)
            / (totalToneCount buckets : Rat),
          100 * (((buckets.filter (fun b => 0 < b.bin)).map ToneBucket.count).sum : Rat)
            / (totalToneCount buckets : Rat))

/-- Rounding to one decimal place, for reading shares as the spec's
percentages. -/
def round1 (x : Rat) : Rat := ((round (10 * x) : Int) : Rat) / 10

/-- The tone fixture of claim C7: buckets `{-2:10, 0:5, 3:15}`. -/
def c7_buckets : List ToneBucket := [⟨-2, 10⟩, ⟨0, 5⟩, ⟨3, 15⟩]

/-- The ASCII single-quote character, kept out of string literals. -/
def squote : String := (Char.ofNat 39).toString

/-- Python `s.replace(";", " OR ")` (app.py line 194): every semicolon is
replaced by the four characters of the join separator. -/
def replace_semi_with_or (s : String) : String :=
  String.mk ((s.data.map (fun c => if c = ';' then " OR ".data else [c])).flatten)

/-- app.py lines 190-196: the summarization prompt built by
`display_summary` from its `keyword_input` argument, the two period date
strings, and one `Title: <t>, URL: <u>` line per article — every article of
the table, newline-joined, with no truncation. -/
def build_prompt (keyword_input start_date end_date : String)
    (articles : List Article) : String :=
  "Summarize significant events related to the search for " ++ squote
    ++ replace_semi_with_or keyword_input ++ squote
    ++ " from " ++ start_date ++ " to " ++ end_date
    ++ ". Here are the top articles: "
    ++ String.intercalate "\n"
        (articles.map (fun a => "Title: " ++ a.title ++ ", URL: " ++ a.url))
    ++ ". "

/-- app.py line 67: `main` passes the built query — not the raw keyword
input — as `display_summary`'s `keyword_input` argument. -/
def main_summary_prompt (keyword_input start_date end_date : String)
    (articles : List Article) : String :=
  build_prompt (build_query keyword_input) start_date end_date articles

lemma splitSemi_ne_nil (l : List Char) : splitSemi l ≠ [] := by
  cases l with
  | nil => simp [splitSemi]
  | cons c rest =>
    simp only [splitSemi]
    split <;> simp

lemma dropWhile_after_strip (p : α → Bool) (l : List α) :
    List.dropWhile p (List.rdropWhile p (List.dropWhile p l)) =
      List.rdropWhile p (List.dropWhile p l) := by
  rw [List.dropWhile_eq_self_iff]
  intro hl
  have hpre := List.rdropWhile_prefix p (List.dropWhile p l)
  have hlen : 0 < (List.dropWhile p l).length := hl.trans_le hpre.length_le
  have h0 : (List.rdropWhile p (List.dropWhile p l)).get ⟨0, hl⟩ =
      (List.dropWhile p l).get ⟨0, hlen⟩ := by
    simp only [List.get_eq_getElem]
    exact hpre.getElem hl
  rw [h0]
  exact List.dropWhile_get_zero_not p l hlen

lemma stripChars_idem (l : List Char) : stripChars (stripChars l) = stripChars l := by
  unfold stripChars
  rw [dropWhile_after_strip, List.rdropWhile_idempotent]

lemma ensure_eq_quote (kw : List Char) :
    ensure_keyword_in_quotes (String.mk (stripChars kw)) = quote_phrase_spec (stripChars kw) := by
  unfold ensure_keyword_in_quotes quote_phrase_spec
  simp [stripChars_idem]

/-- C1: for every raw keyword input, building the query splits the input on
`;`, trims each piece, wraps each piece in double quotes unless it already
starts and ends with a double quote; more than one piece is joined with
` OR ` inside exactly one pair of parentheses, a single piece is returned as
the bare quoted phrase. -/
theorem build_query_matches_spec (raw : String) : build_query raw = build_query_spec raw := by
  unfold build_query build_query_spec
  cases h : splitSemi raw.data with
  | nil => exact absurd h (splitSemi_ne_nil raw.data)
  | cons a t =>
    cases t with
    | nil =>
      simp [ensure_eq_quote]
    | cons b t2 =>
      simp [ensure_eq_quote]

example : build_query "UFO sightings" = "\"UFO sightings\"" := by decide
example : build_query "a;b;c" = "(\"a\" OR \"b\" OR \"c\")" := by decide
example : build_query "\"already quoted\"" = "\"already quoted\"" := by decide
example : build_query "" = "\"\"" := by decide

/-- C3: for each lookback token in the fixed enumeration, `get_start_date`
returns `(start, end)` with `end = now` and `end - start` equal to exactly
7, 30, 90, 180 and 365 days respectively. -/
theorem get_start_date_lookback_durations (now : Int) :
    get_start_date "1 week" now = some (now - 7 * secondsPerDay, now) ∧
    get_start_date "1 month" now = some (now - 30 * secondsPerDay, now) ∧
    get_start_date "3 months" now = some (now - 90 * secondsPerDay, now) ∧
    get_start_date "6 months" now = some (now - 180 * secondsPerDay, now) ∧
    get_start_date "1 year" now = some (now - 365 * secondsPerDay, now) ∧
    now - (now - 7 * secondsPerDay) = 7 * secondsPerDay ∧
    now - (now - 30 * secondsPerDay) = 30 * secondsPerDay ∧
    now - (now - 90 * secondsPerDay) = 90 * secondsPerDay ∧
    now - (now - 180 * secondsPerDay) = 180 * secondsPerDay ∧
    now - (now - 365 * secondsPerDay) = 365 * secondsPerDay := by
  refine ⟨?_, ?_, ?_, ?_, ?_, ?_, ?_, ?_, ?_, ?_⟩ <;>
    first
      | rfl
      | ring

/-- C9: `get_start_date` is partial — any token outside the five offered by
`get_user_input` yields no period (the Python code raises because `start` is
never assigned), and each of the five offered tokens does yield a period. -/
theorem get_start_date_outside_enum (tok : String) (now : Int) :
    (tok ∉ lookback_options → get_start_date tok now = none) ∧
    (tok ∈ lookback_options → (get_start_date tok now).isSome = true) := by
  constructor
  · intro h
    simp only [lookback_options, List.mem_cons, List.not_mem_nil, or_false, not_or] at h
    obtain ⟨h1, h2, h3, h4, h5⟩ := h
    simp [get_start_date, h1, h2, h3, h4, h5]
  · intro h
    simp only [lookback_options, List.mem_cons, List.not_mem_nil, or_false] at h
    rcases h with h | h | h | h | h <;> simp [get_start_date, h]

theorem get_start_date_outside_enum_witness :
    get_start_date "2 weeks" 0 = none ∧ (get_start_date "1 week" 0).isSome = true :=
  ⟨(get_start_date_outside_enum "2 weeks" 0).1 (by decide),
   (get_start_date_outside_enum "1 week" 0).2 (by decide)⟩

lemma mk_timeline_table_length (data : List RawPoint) :
    (mk_timeline_table data).length = data.length := by
  simp [mk_timeline_table, rolling_mean7]

/-- C2: the aggregation never fails as a unit on a non-200 mode: a mode
whose HTTP call returns a non-success status (`none`) gets an empty table
while the tables of the modes that succeeded are still populated, with no
error; in particular a failed tone-histogram call alongside successful
article-list and timeline calls yields a non-empty article table and
timeline table next to an empty tone table. -/
theorem aggregate_tolerates_mode_failure (tp : RawTimelinePayload) (td : List RawPoint)
    (tn : RawTonePayload) (ap : List Article)
    (ht : parse_timeline tp = Except.ok td) (htd : td ≠ []) (hap : ap ≠ []) :
    aggregate_gdelt_data (some tp) none (some ⟨ap⟩) =
        Except.ok (ap, mk_timeline_table td, ([] : List ToneBucket)) ∧
    mk_timeline_table td ≠ [] ∧
    ap ≠ [] ∧
    aggregate_gdelt_data none (some tn) (some ⟨ap⟩) =
        Except.ok (ap, ([] : List TimelinePoint), tn.tonechart) ∧
    aggregate_gdelt_data (some tp) (some tn) none =
        Except.ok (([] : List Article), mk_timeline_table td, tn.tonechart) := by
  refine ⟨?_, ?_, hap, ?_, ?_⟩
  · simp [aggregate_gdelt_data, ht]
  · intro hnil
    have hz : td.length = 0 := by
      rw [← mk_timeline_table_length, hnil]
      rfl
    exact htd (List.length_eq_zero.mp hz)
  · simp [aggregate_gdelt_data]
  · simp [aggregate_gdelt_data, ht]

theorem aggregate_tolerates_mode_failure_witness :
    aggregate_gdelt_data (some ⟨[⟨some [⟨"2024-01-01", 1⟩]⟩]⟩) none (some ⟨[⟨"T", "U"⟩]⟩) =
        Except.ok ([⟨"T", "U"⟩], mk_timeline_table [⟨"2024-01-01", 1⟩], ([] : List ToneBucket)) ∧
    mk_timeline_table [⟨"2024-01-01", 1⟩] ≠ [] ∧
    [(⟨"T", "U"⟩ : Article)] ≠ [] ∧
    aggregate_gdelt_data none (some ⟨[⟨-2, 10⟩]⟩) (some ⟨[⟨"T", "U"⟩]⟩) =
        Except.ok ([⟨"T", "U"⟩], ([] : List TimelinePoint),
          (RawTonePayload.mk [⟨-2, 10⟩]).tonechart) ∧
    aggregate_gdelt_data (some ⟨[⟨some [⟨"2024-01-01", 1⟩]⟩]⟩) (some ⟨[⟨-2, 10⟩]⟩) none =
        Except.ok (([] : List Article), mk_timeline_table [⟨"2024-01-01", 1⟩],
          (RawTonePayload.mk [⟨-2, 10⟩]).tonechart) :=
  aggregate_tolerates_mode_failure ⟨[⟨some [⟨"2024-01-01", 1⟩]⟩]⟩ [⟨"2024-01-01", 1⟩]
    ⟨[⟨-2, 10⟩]⟩ [⟨"T", "U"⟩] rfl (by decide) (by decide)

/-- C10: the partial-failure tolerance covers only payload-less modes; a
timeline payload that is truthy but malformed — an empty `timeline` list,
or a first series without a `data` key — makes the aggregation raise for
the whole request, whatever the other two modes returned. -/
theorem aggregate_malformed_timeline_raises (tone_resp : Option RawTonePayload)
    (articles_resp : Option RawArticlesPayload) :
    aggregate_gdelt_data (some ⟨[]⟩) tone_resp articles_resp =
        Except.error AggError.indexError ∧
    aggregate_gdelt_data (some ⟨[⟨none⟩]⟩) tone_resp articles_resp =
        Except.error AggError.keyError :=
  ⟨rfl, rfl⟩

lemma c4_moving_avg_column :
    (mk_timeline_table c4_points).map TimelinePoint.moving_avg =
      [none, none, none, none, none, none, some 4, some 5] := by
  have hr : List.range 8 = [0, 1, 2, 3, 4, 5, 6, 7] := by decide
  simp only [mk_timeline_table, rolling_mean7, c4_points]
  simp [hr]
  norm_num

/-- C4 counterexample: on timeline values `[1,...,8]` the aggregated
moving-average column is `[-,-,-,-,-,-, 4, 5]`; the 8th point's moving
average is `5`, the trailing mean of the last seven values, while the mean
of all 8 values is `9/2` — so the claim's asserted equality fails. -/
theorem moving_avg_not_mean_of_all_eight :
    ((mk_timeline_table c4_points).map TimelinePoint.moving_avg) =
      [none, none, none, none, none, none, some 4, some 5] ∧
    (c4_points.map RawPoint.value).sum / 8 = (9 : Rat) / 2 ∧
    (some ((9 : Rat) / 2) : Option Rat) ≠ some 5 := by
  refine ⟨c4_moving_avg_column, by norm_num [c4_points], by norm_num⟩

/-- C4 as amended: in the aggregated timeline table the moving average at
index `i` is absent for the first six points and otherwise equals the mean
of the trailing window of 7 values ending at `i`; on values `[1,...,8]`
points 1-6 have no moving average and the 8th point's moving average is the
mean of the last seven values, `5`. -/
theorem moving_avg_is_trailing_seven_mean :
    (∀ (data : List RawPoint) (i : Nat) (h : i < (mk_timeline_table data).length),
        ((mk_timeline_table data).get ⟨i, h⟩).moving_avg =
          if 6 ≤ i then
            some ((((data.map RawPoint.value).take (i + 1)).drop (i - 6)).sum / 7)
          else none) ∧
    ((mk_timeline_table c4_points).map TimelinePoint.moving_avg) =
      [none, none, none, none, none, none, some 4, some 5] := by
  constructor
  · intro data i h
    have hi : i < data.length := by
      rwa [mk_timeline_table_length] at h
    simp only [mk_timeline_table, List.get_eq_getElem, List.getElem_zipWith]
    simp only [rolling_mean7, List.getElem_map, List.getElem_range]
    by_cases h6 : 6 ≤ i
    · rw [if_pos h6, if_pos h6, List.drop_take]
      have h7 : i + 1 - (i - 6) = 7 := by omega
      rw [h7]
    · rw [if_neg h6, if_neg h6]
  · exact c4_moving_avg_column

theorem moving_avg_is_trailing_seven_mean_witness :
    ((mk_timeline_table c4_points).get ⟨7, by decide⟩).moving_avg =
      if 6 ≤ 7 then
        some ((((c4_points.map RawPoint.value).take 8).drop 1).sum / 7)
      else none :=
  moving_avg_is_trailing_seven_mean.1 c4_points 7 (by decide)

/-- C6: a keyword input shorter than 5 characters makes the pipeline stop at
the warning before any network call: no query, no period, no mode request. -/
theorem short_keyword_fails_fast (kw lb : String) (now : Int) (h : kw.length < 5) :
    main_search kw lb now = MainOutcome.tooShortWarning ∧
    requests_of (main_search kw lb now) = [] := by
  constructor <;> simp [main_search, h, requests_of]

theorem short_keyword_fails_fast_witness :
    main_search "abc" "1 week" 0 = MainOutcome.tooShortWarning ∧
    requests_of (main_search "abc" "1 week" 0) = [] :=
  short_keyword_fails_fast "abc" "1 week" 0 (by decide)

/-- C5 counterexample: `build_query` applied to the empty string does not
fail — it returns the quoted empty phrase. -/
theorem build_query_empty_returns_quoted_empty : build_query "" = "\"\"" := by decide

/-- C5 as amended: `build_query` is total and raises no `EmptyKeyword`
error; on the empty string it returns the quoted empty phrase `""`. Empty
input is instead rejected by the caller: `main` requires at least 5
characters before `build_query` is ever called. -/
theorem build_query_empty_guarded_by_caller :
    build_query "" = "\"\"" ∧
    ∀ (lb : String) (now : Int), main_search "" lb now = MainOutcome.tooShortWarning := by
  constructor
  · decide
  · intro lb now
    simp [main_search]

lemma tone_count_split (buckets : List ToneBucket) :
    ((buckets.filter (fun b => b.bin < 0)).map ToneBucket.count).sum +
      ((buckets.filter (fun b => b.bin = 0)).map ToneBucket.count).sum +
      ((buckets.filter (fun b => 0 < b.bin)).map ToneBucket.count).sum =
      totalToneCount buckets := by
  induction buckets with
  | nil => simp [totalToneCount]
  | cons b t ih =>
    simp only [totalToneCount, List.map_cons, List.sum_cons, List.filter_cons] at *
    rcases lt_trichotomy b.bin 0 with h | h | h
    · simp only [h, ne_of_lt h, asymm h, decide_eq_true_eq, if_true, if_false, ite_true,
        ite_false, List.map_cons, List.sum_cons]
      omega
    · simp [h]
      omega
    · simp [h, ne_of_gt h, asymm h]
      omega

/-- C7: whenever the tone table's total count is positive, the three derived
shares exist, are the percentage of counts in bins `< 0`, `= 0`, `> 0`, and
sum to exactly 100; they are undefined when the total count is 0; for the
buckets `{-2:10, 0:5, 3:15}` the shares are `100/3`, `50/3` and `50`
percent — `33.3`, `16.7` and `50.0` to one decimal. -/
theorem tone_shares_sum_to_100 :
    (∀ buckets : List ToneBucket, 0 < totalToneCount buckets →
      ∃ n z p : Rat,
        tone_shares buckets = some (n, z, p) ∧
        n + z + p = 100 ∧
        n = 100 * (((buckets.filter (fun b => b.bin < 0)).map ToneBucket.count).sum : Rat)
              / (totalToneCount buckets : Rat) ∧
        z = 100 * (((buckets.filter (fun b => b.bin = 0)).map ToneBucket.count).sum : Rat)
              / (totalToneCount buckets : Rat) ∧
        p = 100 * (((buckets.filter (fun b => 0 < b.bin)).map ToneBucket.count).sum : Rat)
              / (totalToneCount buckets : Rat)) ∧
    (∀ buckets : List ToneBucket, totalToneCount buckets = 0 → tone_shares buckets = none) ∧
    tone_shares c7_buckets = some (100 / 3, 50 / 3, 50) ∧
    round1 (100 / 3) = 333 / 10 ∧ round1 (50 / 3) = 167 / 10 ∧ round1 50 = 50 := by
  refine ⟨?_, ?_, ?_, ?_, ?_, ?_⟩
  · intro buckets h
    have hne : totalToneCount buckets ≠ 0 := ne_of_gt h
    refine ⟨_, _, _, ?_, ?_, rfl, rfl, rfl⟩
    · simp [tone_shares, hne]
    · have hsplit := tone_count_split buckets
      have hT : (totalToneCount buckets : Rat) ≠ 0 := Int.cast_ne_zero.mpr hne
      have hcast :
          ((((buckets.filter (fun b => b.bin < 0)).map ToneBucket.count).sum : Rat) +
            (((buckets.filter (fun b => b.bin = 0)).map ToneBucket.count).sum : Rat) +
            (((buckets.filter (fun b => 0 < b.bin)).map ToneBucket.count).sum : Rat)) =
            (totalToneCount buckets : Rat) := by
        exact_mod_cast hsplit
      rw [div_add_div_same, div_add_div_same, div_eq_iff hT]
      linear_combination (100 : Rat) * hcast
  · intro buckets h
    simp [tone_shares, h]
  · norm_num [tone_shares, totalToneCount, c7_buckets]
  · norm_num [round1, round_eq]
  · norm_num [round1, round_eq]
  · norm_num [round1, round_eq]

theorem tone_shares_sum_to_100_witness :
    0 < totalToneCount c7_buckets ∧
    (∃ n z p : Rat,
      tone_shares c7_buckets = some (n, z, p) ∧
      n + z + p = 100 ∧
      n = 100 * (((c7_buckets.filter (fun b => b.bin < 0)).map ToneBucket.count).sum : Rat)
            / (totalToneCount c7_buckets : Rat) ∧
      z = 100 * (((c7_buckets.filter (fun b => b.bin = 0)).map ToneBucket.count).sum : Rat)
            / (totalToneCount c7_buckets : Rat) ∧
      p = 100 * (((c7_buckets.filter (fun b => 0 < b.bin)).map ToneBucket.count).sum : Rat)
            / (totalToneCount c7_buckets : Rat)) ∧
    tone_shares [] = none :=
  ⟨by decide, tone_shares_sum_to_100.1 c7_buckets (by decide),
    tone_shares_sum_to_100.2.1 [] (by decide)⟩

set_option maxRecDepth 4000 in
/-- C8 (code bug): the prompt `main` actually produces embeds the built
query verbatim, with its exact-phrase quotes and parentheses — the
semicolon replacement is a no-op because the built query contains no
semicolon — so it differs from the prompt `display_summary` would build
from the raw keyword input, which is the OR-joined rendering the spec
describes. Dates and all article lines are embedded as claimed. -/
theorem summary_prompt_embeds_built_query :
    main_summary_prompt "cats;dogs" "2024-01-01" "2024-03-31"
        [⟨"T1", "U1"⟩, ⟨"T2", "U2"⟩] =
      "Summarize significant events related to the search for " ++ squote
        ++ "(\"cats\" OR \"dogs\")" ++ squote
        ++ " from 2024-01-01 to 2024-03-31. Here are the top articles: "
        ++ "Title: T1, URL: U1\nTitle: T2, URL: U2" ++ ". " ∧
    replace_semi_with_or "cats;dogs" = "cats OR dogs" ∧
    main_summary_prompt "cats;dogs" "2024-01-01" "2024-03-31"
        [⟨"T1", "U1"⟩, ⟨"T2", "U2"⟩] ≠
      build_prompt "cats;dogs" "2024-01-01" "2024-03-31"
        [⟨"T1", "U1"⟩, ⟨"T2", "U2"⟩] :=
  ⟨by decide, by decide, by decide⟩

